import Mathlib

/-!
Verification of `pdf-property-editor`, a command-line tool that reads and
writes the `Keywords` entry of a PDF document's info dictionary.  The
development below is a shallow embedding of `src/pdf-property-editor.py`:
the constant tables, the argument-parsing checks, the keyword assembly, and
the metadata read/write operations.  The external PDF library (pdfrw) is
not part of the repository; the file state it mediates is modelled from the
spec as an optional info dictionary (a string-to-string mapping), with
side effects recorded as an explicit event trace.
-/

namespace PdfPropertyEditor

/-- Constant `PROPERTY_KEYWORDS` (source line 9): the info-dictionary key
this tool writes. -/
def PROPERTY_KEYWORDS : String := "/Keywords"

/-- Constant `STRATEGY_MERGE` (source line 10). -/
def STRATEGY_MERGE : String := "merge"

/-- Constant `STRATEGY_OVERWRITE` (source line 11). -/
def STRATEGY_OVERWRITE : String := "overwrite"

/-- Constant `STRATEGIES` (source line 12), in source order. -/
def STRATEGIES : List String := [STRATEGY_OVERWRITE, STRATEGY_MERGE]

/-- Constant `USER_KEYS` (source lines 14-29): the values accepted by the
`--key` option of the `write` subcommand, in source order. -/
def USER_KEYS : List String :=
  ["Ab", "A", "Bb", "B", "C", "C#", "Db", "D", "Eb", "E", "F", "F#", "G", "G#"]

/-- Choices of the `--instrument` option (source line 61). -/
def INSTRUMENT_CHOICES : List String := ["bass", "guitar", "ukulele"]

/-- Constant `ENHARMONICS` (source lines 31-40): the static enharmonic
lookup table, as an association list in source order. -/
def ENHARMONICS : List (String × String) :=
  [("Ab", "G#/Ab"), ("G#", "G#/Ab"),
   ("A#", "A#/Bb"), ("Bb", "A#/Bb"),
   ("C#", "C#/Db"), ("Db", "C#/Db"),
   ("D#", "D#/Eb"), ("Eb", "D#/Eb")]

/-- Python `ENHARMONICS.get(k, k)` (source line 86): look the key up in the
table, returning the key itself when there is no entry. -/
def enharmonicGet (k : String) : String := ((ENHARMONICS.lookup k).getD k)

/-- Truthiness of a Python optional string: `None` and the empty string are
falsy, every other string is truthy. -/
def pyTruthyStr : Option String → Bool
  | none => false
  | some s => !s.isEmpty

/-- Truthiness of a Python optional list: `None` and the empty list are
falsy. -/
def pyTruthyList : Option (List String) → Bool
  | none => false
  | some l => !l.isEmpty

/-- Python `str.lower()`, at the character-list level. -/
def pyLower (s : String) : String := String.mk (s.data.map Char.toLower)

/-- Python `str.endswith(suffix)`, at the character-list level. -/
def pyEndsWith (s suffix : String) : Bool := suffix.data.isSuffixOf s.data

/-- The fields of the parsed `write` namespace that keyword assembly reads
(after `parseargs` has rewritten `key` through the enharmonic table). -/
structure Args where
  chords : Bool
  jon : Bool
  key : Option String
  youtube : Option String
  spotify : Option String
  instrument : Option (List String)
  tab : Bool
deriving DecidableEq

/-- Raw command-line option values of the `write` subcommand, before
argparse validation. -/
structure WriteFlags where
  key : Option String
  chords : Bool
  jon : Bool
  instrument : Option (List String)
  tab : Bool
  youtube : Option String
  spotify : Option String
  merge : Bool
  overwrite : Bool
deriving DecidableEq

/-- The chosen subcommand together with its raw option values. -/
inductive RawAction
  | read
  | write (flags : WriteFlags)
deriving DecidableEq

/-- Observable side effects of a run: the existence check of the file
argument, opening the file, saving (re-writing) the file, and printing a
line to the console. -/
inductive IOEvent
  | existsCheck (file : String)
  | openFile (file : String)
  | saveFile (file : String)
  | printLine (msg : String)
deriving DecidableEq

/-- Validation argparse performs during `p.parse_args()` (source lines
44-71): `--key` is restricted to `USER_KEYS`, `--instrument` takes one or
more values from its choices, and exactly one of `--merge`/`--overwrite`
must be given (required mutually exclusive group). -/
def argparse_accepts : RawAction → Bool
  | RawAction.read => true
  | RawAction.write f =>
      (match f.key with
        | some k => USER_KEYS.contains k
        | none => true) &&
      (match f.instrument with
        | some l => !l.isEmpty && l.all (fun i => INSTRUMENT_CHOICES.contains i)
        | none => true) &&
      (f.merge != f.overwrite)

/-- Result of the parsed `write` subcommand: validated file, assembled
namespace fields, and the resolved strategy string. -/
structure ParsedWrite where
  file : String
  args : Args
  strategy : String
deriving DecidableEq

/-- Result of `parseargs` when it returns normally. -/
inductive Parsed
  | read (file : String)
  | write (pw : ParsedWrite)
deriving DecidableEq

/-- How `parseargs` finishes: a `sys.exit`/argparse termination with a
message, an uncaught exception, or a normal return. -/
inductive ParseResult
  | exited (msg : String)
  | crashed (msg : String)
  | ok (p : Parsed)
deriving DecidableEq

/-- Outcome of argument handling together with the I/O events it performed. -/
structure ParseOutcome where
  result : ParseResult
  events : List IOEvent
deriving DecidableEq

/-- Function `parseargs` (source lines 43-87), with the argparse validation
of `p.parse_args()` folded in front.  The order in the source is: argparse
choice/group validation, then the `.pdf` suffix check (line 73), then the
existence check (line 77), then strategy resolution (lines 80-83) and
enharmonic normalization of `--key` (lines 85-86).  `fsHas` abstracts
`Path.exists`.  For the `read` subcommand the namespace produced by
argparse has no `merge` attribute, so line 80 (`if args.merge:`) raises an
`AttributeError`; this is modelled as a crash. -/
def parseargs (fsHas : String → Bool) (fileArg : String) (action : RawAction) : ParseOutcome :=
  if argparse_accepts action = false then
    ⟨ParseResult.exited "usage", []⟩
  else if pyEndsWith (pyLower fileArg) ".pdf" = false then
    ⟨ParseResult.exited "only works with PDF files", []⟩
  else if fsHas fileArg = false then
    ⟨ParseResult.exited ("Not a file: " ++ fileArg), [IOEvent.existsCheck fileArg]⟩
  else
    match action with
    | RawAction.read =>
        ⟨ParseResult.crashed "AttributeError: merge", [IOEvent.existsCheck fileArg]⟩
    | RawAction.write f =>
        let strategy := if f.merge then STRATEGY_MERGE else STRATEGY_OVERWRITE
        let key := if pyTruthyStr f.key then some (enharmonicGet (f.key.getD "")) else f.key
        ⟨ParseResult.ok (Parsed.write
          { file := fileArg
            args :=
              { chords := f.chords, jon := f.jon, key := key,
                youtube := f.youtube, spotify := f.spotify,
                instrument := f.instrument, tab := f.tab }
            strategy := strategy }),
          [IOEvent.existsCheck fileArg]⟩

/-- Function `gather_properties`, keyword list part (source lines 91-106):
conditional appends in the fixed source order, with Python truthiness
guards on the optional values. -/
def gather_keywords (args : Args) : List String :=
  let kws : List String := []
  let kws := if args.chords then kws ++ ["#chords"] else kws
  let kws := if args.jon then kws ++ ["#jon"] else kws
  let kws := if pyTruthyStr args.key then kws ++ ["#key=" ++ args.key.getD ""] else kws
  let kws := if pyTruthyStr args.youtube then kws ++ [args.youtube.getD ""] else kws
  let kws := if pyTruthyStr args.spotify then kws ++ [args.spotify.getD ""] else kws
  let kws := if pyTruthyList args.instrument then
      kws ++ (args.instrument.getD []).map (fun i => "#" ++ i)
    else kws
  let kws := if args.tab then kws ++ ["#tab"] else kws
  kws

/-- Function `gather_properties`, dictionary part (source lines 108-111):
the `Keywords` entry is created only when the token list is non-empty, its
value being the tokens joined with `"; "`. -/
def gather_properties (args : Args) : List (String × String) :=
  let keywords := gather_keywords args
  if keywords.isEmpty then [] else [(PROPERTY_KEYWORDS, String.intercalate "; " keywords)]

/-- Modelled from the spec: the observable state of a PDF file as mediated
by the external PDF library (pdfrw, not part of this repository) is its
document-info dictionary — a mapping from key names to string values — or
no info dictionary at all. -/
structure Doc where
  info : Option (List (String × String))
deriving DecidableEq

/-- The info dictionary the writer operates on after lines 149-150
(`if not writer.Info: writer.Info = {}`): a missing dictionary is replaced
by an empty one. -/
def infoDict (doc : Doc) : List (String × String) :=
  match doc.info with
  | none => []
  | some d => d

/-- Modelled from the spec: the attribute read `writer.Info.Keywords` on
the external library's dictionary.  Per the spec, merging into a document
with no prior `Keywords` value yields the new text with a leading `"; "`,
so an absent entry reads as the empty string. -/
def infoGetKeywords (d : List (String × String)) : String :=
  ((d.lookup PROPERTY_KEYWORDS).getD "")

/-- Modelled from the spec: the attribute write `writer.Info.Keywords = v`
on the external library's dictionary: update in place, appending the entry
when absent. -/
def dictSet (d : List (String × String)) (k v : String) : List (String × String) :=
  match d with
  | [] => [(k, v)]
  | (k', v') :: rest => if k' == k then (k, v) :: rest else (k', v') :: dictSet rest k v

/-- The `Keywords` value currently stored in a document. -/
def docKeywords (doc : Doc) : Option String := (infoDict doc).lookup PROPERTY_KEYWORDS

/-- Function `read_properties` (source lines 114-131): print a status
line, open the file, and copy the info dictionary into a plain mapping
when it is truthy (an absent or empty dictionary yields the empty
mapping). -/
def read_properties (file : String) (doc : Doc) : List (String × String) × List IOEvent :=
  let events := [IOEvent.printLine ("reading properties for " ++ file), IOEvent.openFile file]
  let props := match doc.info with
    | none => []
    | some d => if d.isEmpty then [] else d
  (props, events)

/-- How `write_properties` finishes: normally, or by raising `ValueError`. -/
inductive WriteResult
  | ok
  | valueError (msg : String)
deriving DecidableEq

/-- Result of `write_properties`: how it finished, the file state it
leaves behind, and the I/O events it performed, in order. -/
structure WriteOutcome where
  result : WriteResult
  doc : Doc
  events : List IOEvent
deriving DecidableEq

/-- Function `write_properties` (source lines 134-162).  The strategy is
validated first (line 143, before the print on line 145 and before the
file is opened on line 147).  If the properties mapping has a `Keywords`
entry, the document's `Keywords` value is merged or overwritten and the
file is saved; otherwise `is_modified` stays false and no save happens.
Either way the file is then re-read (line 161) and a blank line printed. -/
def write_properties (file : String) (doc : Doc) (properties : List (String × String))
    (strategy : String) : WriteOutcome :=
  if STRATEGIES.contains strategy = false then
    ⟨WriteResult.valueError ("invalid stategy: " ++ strategy), doc, []⟩
  else
    let ev0 := [IOEvent.printLine ("Writing properties to " ++ file), IOEvent.openFile file]
    let info0 := infoDict doc
    match properties.lookup PROPERTY_KEYWORDS with
    | some kw =>
        let newInfo :=
          if strategy == STRATEGY_MERGE then
            dictSet info0 PROPERTY_KEYWORDS (infoGetKeywords info0 ++ "; " ++ kw)
          else
            dictSet info0 PROPERTY_KEYWORDS kw
        let newDoc : Doc := ⟨some newInfo⟩
        ⟨WriteResult.ok, newDoc,
          ev0 ++ [IOEvent.printLine ("Saving " ++ file), IOEvent.saveFile file] ++
            (read_properties file newDoc).2 ++ [IOEvent.printLine ""]⟩
    | none =>
        ⟨WriteResult.ok, doc, ev0 ++ (read_properties file doc).2 ++ [IOEvent.printLine ""]⟩

/-- Updating a dictionary entry makes it the value returned by lookup. -/
theorem lookup_dictSet_self (d : List (String × String)) (k v : String) :
    (dictSet d k v).lookup k = some v := by
  induction d with
  | nil => simp [dictSet, List.lookup_cons]
  | cons hd tl ih =>
      obtain ⟨a, b⟩ := hd
      by_cases h : a = k
      · subst h
        simp [dictSet, List.lookup_cons]
      · have h1 : (a == k) = false := beq_eq_false_iff_ne.mpr h
        have h2 : (k == a) = false := beq_eq_false_iff_ne.mpr (Ne.symm h)
        simp [dictSet, h1, h2, List.lookup_cons, ih]

/-- Updating a dictionary entry never yields the empty dictionary. -/
theorem dictSet_ne_nil (d : List (String × String)) (k v : String) :
    dictSet d k v ≠ [] := by
  cases d with
  | nil => simp [dictSet]
  | cons hd tl =>
      obtain ⟨a, b⟩ := hd
      by_cases h : a = k <;> simp [dictSet, h]

/-- Reading a document with a non-empty info dictionary returns that
dictionary. -/
theorem read_properties_some (file : String) (d : List (String × String)) (hd : d ≠ []) :
    (read_properties file ⟨some d⟩).1 = d := by
  simp [read_properties, hd]

/-- C5: the enharmonic normalizer maps `Ab` and `G#` to `G#/Ab` and `C#`
to `C#/Db`; both members of each enharmonic pair in the table map to the
same canonical `X#/Yb` string; and every natural note name passes through
unchanged. -/
theorem enharmonics_table :
    enharmonicGet "Ab" = "G#/Ab" ∧ enharmonicGet "G#" = "G#/Ab" ∧
    enharmonicGet "C#" = "C#/Db" ∧
    (enharmonicGet "Ab" = enharmonicGet "G#" ∧ enharmonicGet "A#" = enharmonicGet "Bb" ∧
      enharmonicGet "C#" = enharmonicGet "Db" ∧ enharmonicGet "D#" = enharmonicGet "Eb") ∧
    ∀ n, n ∈ ["A", "B", "C", "D", "E", "F", "G"] → enharmonicGet n = n := by
  refine ⟨by decide, by decide, by decide, by decide, ?_⟩
  intro n hn
  fin_cases hn <;> decide

/-- Witness for C5 at the natural notes `C` and `E`. -/
theorem enharmonics_table_witness :
    enharmonicGet "C" = "C" ∧ enharmonicGet "E" = "E" :=
  ⟨enharmonics_table.2.2.2.2 "C" (by decide), enharmonics_table.2.2.2.2 "E" (by decide)⟩

/-- C4: when no keyword-producing flag is set (both boolean flags false
and every optional value falsy in Python's sense), keyword assembly
returns a mapping with no `Keywords` key at all. -/
theorem gather_properties_no_flags (args : Args)
    (hc : args.chords = false) (hj : args.jon = false)
    (hk : pyTruthyStr args.key = false)
    (hy : pyTruthyStr args.youtube = false)
    (hs : pyTruthyStr args.spotify = false)
    (hi : pyTruthyList args.instrument = false)
    (ht : args.tab = false) :
    gather_properties args = [] ∧
    (gather_properties args).lookup PROPERTY_KEYWORDS = none := by
  have h : gather_keywords args = [] := by
    simp [gather_keywords, hc, hj, hk, hy, hs, hi, ht]
  refine ⟨?_, ?_⟩ <;> simp [gather_properties, h]

/-- Witness for C4 with every flag absent. -/
theorem gather_properties_no_flags_witness :
    gather_properties ⟨false, false, none, none, none, none, false⟩ = [] ∧
    (gather_properties ⟨false, false, none, none, none, none, false⟩).lookup
      PROPERTY_KEYWORDS = none :=
  gather_properties_no_flags ⟨false, false, none, none, none, none, false⟩
    rfl rfl rfl rfl rfl rfl rfl

/-- C9: a file argument that does not end in `.pdf` case-insensitively
makes argument handling terminate with a message, before the existence
check and before any file is opened: the event trace is empty. -/
theorem parseargs_non_pdf (fsHas : String → Bool) (fileArg : String) (action : RawAction)
    (h : pyEndsWith (pyLower fileArg) ".pdf" = false) :
    (parseargs fsHas fileArg action).events = [] ∧
    ∃ msg, (parseargs fsHas fileArg action).result = ParseResult.exited msg := by
  cases ha : argparse_accepts action <;> simp [parseargs, ha, h]

/-- Witness for C9 on a `read` invocation of a `.txt` file. -/
theorem parseargs_non_pdf_witness :
    (parseargs (fun _ => true) "song.txt" RawAction.read).events = [] ∧
    (parseargs (fun _ => true) "song.txt" RawAction.read).result =
      ParseResult.exited "only works with PDF files" :=
  ⟨(parseargs_non_pdf (fun _ => true) "song.txt" RawAction.read (by decide)).1, by decide⟩

/-- C10: the `--key` option accepts exactly the fourteen `USER_KEYS`
names; `A#` and `D#` are rejected although they appear in the enharmonic
table; and any write invocation whose key is outside the list is rejected
during argument parsing, before normalization and before any file I/O. -/
theorem user_keys_choices :
    (∀ k : String, USER_KEYS.contains k = true ↔
      (k = "Ab" ∨ k = "A" ∨ k = "Bb" ∨ k = "B" ∨ k = "C" ∨ k = "C#" ∨ k = "Db" ∨
       k = "D" ∨ k = "Eb" ∨ k = "E" ∨ k = "F" ∨ k = "F#" ∨ k = "G" ∨ k = "G#")) ∧
    USER_KEYS.contains "A#" = false ∧ USER_KEYS.contains "D#" = false ∧
    (ENHARMONICS.lookup "A#").isSome = true ∧ (ENHARMONICS.lookup "D#").isSome = true ∧
    ∀ (fsHas : String → Bool) (fileArg : String) (f : WriteFlags) (k : String),
      f.key = some k → USER_KEYS.contains k = false →
      (parseargs fsHas fileArg (RawAction.write f)).events = [] ∧
      (parseargs fsHas fileArg (RawAction.write f)).result = ParseResult.exited "usage" := by
  refine ⟨?_, by decide, by decide, by decide, by decide, ?_⟩
  · intro k
    simp [USER_KEYS]
  · intro fsHas fileArg f k hk hcontains
    have hmem : k ∉ USER_KEYS := by simpa using hcontains
    have ha : argparse_accepts (RawAction.write f) = false := by
      simp [argparse_accepts, hk, hmem]
    simp [parseargs, ha]

/-- Witness for C10 rejecting `--key A#`. -/
theorem user_keys_choices_witness :
    (parseargs (fun _ => true) "song.pdf" (RawAction.write
      { key := some "A#", chords := false, jon := false, instrument := none,
        tab := false, youtube := none, spotify := none,
        merge := true, overwrite := false })).events = [] ∧
    (parseargs (fun _ => true) "song.pdf" (RawAction.write
      { key := some "A#", chords := false, jon := false, instrument := none,
        tab := false, youtube := none, spotify := none,
        merge := true, overwrite := false })).result = ParseResult.exited "usage" :=
  user_keys_choices.2.2.2.2.2 (fun _ => true) "song.pdf"
    { key := some "A#", chords := false, jon := false, instrument := none,
      tab := false, youtube := none, spotify := none,
      merge := true, overwrite := false } "A#" rfl (by decide)

/-- C7: a strategy other than `merge`/`overwrite` makes the writer raise a
`ValueError` before the file is opened: the event trace is empty and the
file state is unchanged. -/
theorem write_invalid_strategy (file : String) (doc : Doc)
    (properties : List (String × String)) (strategy : String)
    (h1 : strategy ≠ STRATEGY_MERGE) (h2 : strategy ≠ STRATEGY_OVERWRITE) :
    (write_properties file doc properties strategy).result =
      WriteResult.valueError ("invalid stategy: " ++ strategy) ∧
    (write_properties file doc properties strategy).doc = doc ∧
    (write_properties file doc properties strategy).events = [] := by
  simp only [STRATEGY_MERGE] at h1
  simp only [STRATEGY_OVERWRITE] at h2
  simp [write_properties, STRATEGIES, STRATEGY_MERGE, STRATEGY_OVERWRITE, h1, h2]

/-- Witness for C7 with the misspelled strategy `merg`. -/
theorem write_invalid_strategy_witness :
    (write_properties "a.pdf" ⟨some [("/Keywords", "old")]⟩ [("/Keywords", "new")] "merg").result =
      WriteResult.valueError ("invalid stategy: " ++ "merg") ∧
    (write_properties "a.pdf" ⟨some [("/Keywords", "old")]⟩ [("/Keywords", "new")] "merg").doc =
      ⟨some [("/Keywords", "old")]⟩ ∧
    (write_properties "a.pdf" ⟨some [("/Keywords", "old")]⟩ [("/Keywords", "new")] "merg").events = [] :=
  write_invalid_strategy "a.pdf" ⟨some [("/Keywords", "old")]⟩ [("/Keywords", "new")] "merg"
    (by decide) (by decide)

/-- With a valid strategy and a `Keywords` entry in the properties
mapping, the writer saves a document whose info dictionary is the old one
with `Keywords` updated: merged under `merge`, replaced under
`overwrite`. -/
theorem write_doc_eq (file : String) (doc : Doc) (properties : List (String × String))
    (strategy txt : String)
    (hs : strategy = STRATEGY_MERGE ∨ strategy = STRATEGY_OVERWRITE)
    (hp : properties.lookup PROPERTY_KEYWORDS = some txt) :
    (write_properties file doc properties strategy).doc =
      ⟨some (dictSet (infoDict doc) PROPERTY_KEYWORDS
        (if strategy == STRATEGY_MERGE then infoGetKeywords (infoDict doc) ++ "; " ++ txt
         else txt))⟩ := by
  rcases hs with h | h <;> subst h
  · simp [write_properties, hp, STRATEGIES]
  · have hne : (STRATEGY_OVERWRITE == STRATEGY_MERGE) = false := by decide
    simp [write_properties, hp, STRATEGIES, hne]

/-- The `Keywords` value stored by a successful write. -/
theorem write_doc_keywords (file : String) (doc : Doc) (properties : List (String × String))
    (strategy txt : String)
    (hs : strategy = STRATEGY_MERGE ∨ strategy = STRATEGY_OVERWRITE)
    (hp : properties.lookup PROPERTY_KEYWORDS = some txt) :
    docKeywords (write_properties file doc properties strategy).doc =
      some (if strategy == STRATEGY_MERGE then infoGetKeywords (infoDict doc) ++ "; " ++ txt
        else txt) := by
  rw [write_doc_eq file doc properties strategy txt hs hp]
  simp [docKeywords, infoDict, lookup_dictSet_self]

/-- C1: writing with the merge strategy appends `"; <new text>"` to the
existing `Keywords` value: a document with prior value `old` ends up with
`old; new`, and a document with no prior `Keywords` value ends up with the
leading-separator value `; new`. -/
theorem write_merge_keywords (file : String) (doc : Doc)
    (properties : List (String × String)) (txt : String)
    (hp : properties.lookup PROPERTY_KEYWORDS = some txt) :
    (∀ old, docKeywords doc = some old →
      docKeywords (write_properties file doc properties STRATEGY_MERGE).doc =
        some (old ++ "; " ++ txt)) ∧
    (docKeywords doc = none →
      docKeywords (write_properties file doc properties STRATEGY_MERGE).doc =
        some ("; " ++ txt)) := by
  have hd := write_doc_keywords file doc properties STRATEGY_MERGE txt (Or.inl rfl) hp
  rw [(by decide : (STRATEGY_MERGE == STRATEGY_MERGE) = true)] at hd
  simp only [if_true] at hd
  constructor
  · intro old hold
    have hg : infoGetKeywords (infoDict doc) = old := by
      simp only [docKeywords] at hold
      simp [infoGetKeywords, hold]
    rw [hd, hg]
  · intro hold
    have hg : infoGetKeywords (infoDict doc) = "" := by
      simp only [docKeywords] at hold
      simp [infoGetKeywords, hold]
    rw [hd, hg, (by decide : ("" ++ "; " : String) = "; ")]

/-- Witness for C1: merging `new` into a document with `Keywords=old`
gives `old; new`; into a document with no info dictionary gives `; new`. -/
theorem write_merge_keywords_witness :
    docKeywords (write_properties "a.pdf" ⟨some [("/Keywords", "old")]⟩
      [("/Keywords", "new")] STRATEGY_MERGE).doc = some "old; new" ∧
    docKeywords (write_properties "a.pdf" ⟨none⟩
      [("/Keywords", "new")] STRATEGY_MERGE).doc = some "; new" := by
  constructor
  · have h := (write_merge_keywords "a.pdf" ⟨some [("/Keywords", "old")]⟩
      [("/Keywords", "new")] "new" (by decide)).1 "old" (by decide)
    exact h.trans (by decide)
  · have h := (write_merge_keywords "a.pdf" ⟨none⟩
      [("/Keywords", "new")] "new" (by decide)).2 (by decide)
    exact h.trans (by decide)

/-- C2: writing with the overwrite strategy replaces the document's
`Keywords` value with the assembled text, whatever was there before. -/
theorem write_overwrite_keywords (file : String) (doc : Doc)
    (properties : List (String × String)) (txt : String)
    (hp : properties.lookup PROPERTY_KEYWORDS = some txt) :
    docKeywords (write_properties file doc properties STRATEGY_OVERWRITE).doc = some txt := by
  have hd := write_doc_keywords file doc properties STRATEGY_OVERWRITE txt (Or.inr rfl) hp
  rw [(by decide : (STRATEGY_OVERWRITE == STRATEGY_MERGE) = false)] at hd
  simpa using hd

/-- Witness for C2 overwriting `old` with `new`. -/
theorem write_overwrite_keywords_witness :
    docKeywords (write_properties "a.pdf" ⟨some [("/Keywords", "old")]⟩
      [("/Keywords", "new")] STRATEGY_OVERWRITE).doc = some "new" :=
  write_overwrite_keywords "a.pdf" ⟨some [("/Keywords", "old")]⟩ [("/Keywords", "new")] "new"
    (by decide)

/-- C6: after a successful write of a `Keywords` value, an immediate read
of the same file returns a mapping whose `Keywords` entry equals the value
just written (the merged value under `merge`, the new text under
`overwrite`). -/
theorem read_after_write (file : String) (doc : Doc) (properties : List (String × String))
    (strategy txt : String)
    (hs : strategy = STRATEGY_MERGE ∨ strategy = STRATEGY_OVERWRITE)
    (hp : properties.lookup PROPERTY_KEYWORDS = some txt) :
    ((read_properties file (write_properties file doc properties strategy).doc).1).lookup
        PROPERTY_KEYWORDS =
      some (if strategy == STRATEGY_MERGE then infoGetKeywords (infoDict doc) ++ "; " ++ txt
        else txt) := by
  rw [write_doc_eq file doc properties strategy txt hs hp,
    read_properties_some file _ (dictSet_ne_nil _ _ _), lookup_dictSet_self]

/-- Witness for C6: read after a merge write returns the merged value. -/
theorem read_after_write_witness :
    ((read_properties "a.pdf" (write_properties "a.pdf" ⟨some [("/Keywords", "old")]⟩
        [("/Keywords", "new")] STRATEGY_MERGE).doc).1).lookup PROPERTY_KEYWORDS =
      some "old; new" := by
  have h := read_after_write "a.pdf" ⟨some [("/Keywords", "old")]⟩ [("/Keywords", "new")]
    STRATEGY_MERGE "new" (Or.inl rfl) (by decide)
  exact h.trans (by decide)

/-- C8: when the properties mapping has no `Keywords` entry the writer
leaves the file unchanged and never saves it; every event it performs is a
console print or the (re-)open of the file for reading. -/
theorem write_no_keywords_no_save (file : String) (doc : Doc)
    (properties : List (String × String)) (strategy : String)
    (hp : properties.lookup PROPERTY_KEYWORDS = none) :
    (write_properties file doc properties strategy).doc = doc ∧
    (∀ f, IOEvent.saveFile f ∉ (write_properties file doc properties strategy).events) ∧
    ∀ e ∈ (write_properties file doc properties strategy).events,
      e = IOEvent.openFile file ∨ ∃ m, e = IOEvent.printLine m := by
  cases hc : STRATEGIES.contains strategy
  · unfold write_properties
    rw [hc]
    simp
  · unfold write_properties
    rw [hc]
    simp [hp, read_properties]

/-- Witness for C8 with an empty properties mapping. -/
theorem write_no_keywords_no_save_witness :
    (write_properties "a.pdf" ⟨some [("/Author", "x")]⟩ [] STRATEGY_MERGE).doc =
      ⟨some [("/Author", "x")]⟩ ∧
    IOEvent.saveFile "a.pdf" ∉
      (write_properties "a.pdf" ⟨some [("/Author", "x")]⟩ [] STRATEGY_MERGE).events := by
  have h := write_no_keywords_no_save "a.pdf" ⟨some [("/Author", "x")]⟩ [] STRATEGY_MERGE rfl
  exact ⟨h.1, h.2.1 "a.pdf"⟩

/-- C3: keyword assembly emits tokens in the fixed order `#chords`,
`#jon`, `#key=<normalized key>`, youtube URL, spotify URL, one
`#<instrument>` per selected instrument in input order, `#tab`, joined
with `"; "`; in particular `--chords --key Ab --instrument guitar bass
--tab` yields `#chords; #key=G#/Ab; #guitar; #bass; #tab`. -/
theorem gather_keywords_order :
    (∀ args : Args,
      gather_keywords args =
        (if args.chords then ["#chords"] else []) ++
        (if args.jon then ["#jon"] else []) ++
        (if pyTruthyStr args.key then ["#key=" ++ args.key.getD ""] else []) ++
        (if pyTruthyStr args.youtube then [args.youtube.getD ""] else []) ++
        (if pyTruthyStr args.spotify then [args.spotify.getD ""] else []) ++
        (if pyTruthyList args.instrument then (args.instrument.getD []).map (fun i => "#" ++ i)
         else []) ++
        (if args.tab then ["#tab"] else [])) ∧
    (∀ args : Args, gather_keywords args ≠ [] →
      gather_properties args =
        [(PROPERTY_KEYWORDS, String.intercalate "; " (gather_keywords args))]) ∧
    (parseargs (fun _ => true) "song.pdf" (RawAction.write
      { key := some "Ab", chords := true, jon := false,
        instrument := some ["guitar", "bass"], tab := true,
        youtube := none, spotify := none, merge := true, overwrite := false })).result =
      ParseResult.ok (Parsed.write
        { file := "song.pdf"
          args := { chords := true, jon := false, key := some "G#/Ab",
                    youtube := none, spotify := none,
                    instrument := some ["guitar", "bass"], tab := true }
          strategy := STRATEGY_MERGE }) ∧
    gather_properties
        { chords := true, jon := false, key := some "G#/Ab", youtube := none,
          spotify := none, instrument := some ["guitar", "bass"], tab := true } =
      [(PROPERTY_KEYWORDS, "#chords; #key=G#/Ab; #guitar; #bass; #tab")] := by
  refine ⟨?_, ?_, by decide, by decide⟩
  · intro args
    obtain ⟨c, j, k, y, s, ins, t⟩ := args
    simp only [gather_keywords]
    cases c <;> cases j <;> cases t <;>
      cases hk : pyTruthyStr k <;> cases hy : pyTruthyStr y <;>
      cases hs : pyTruthyStr s <;> cases hi : pyTruthyList ins <;>
      simp [hk, hy, hs, hi]
  · intro args hne
    simp [gather_properties, hne]

/-- Witness for C3 at the example arguments. -/
theorem gather_keywords_order_witness :
    gather_properties
        { chords := true, jon := false, key := some "G#/Ab", youtube := none,
          spotify := none, instrument := some ["guitar", "bass"], tab := true } =
      [(PROPERTY_KEYWORDS, String.intercalate "; "
        (gather_keywords
          { chords := true, jon := false, key := some "G#/Ab", youtube := none,
            spotify := none, instrument := some ["guitar", "bass"], tab := true }))] :=
  gather_keywords_order.2.1
    { chords := true, jon := false, key := some "G#/Ab", youtube := none,
      spotify := none, instrument := some ["guitar", "bass"], tab := true } (by decide)

end PdfPropertyEditor
